import Mathlib

/-!
Shallow embedding of the `SlackNotifications` package
(`SlackNotifications/slack.py` and `SlackNotifications/exceptions.py`).

Python exceptions are modelled as an explicit error type carrying the
formatted exception message; fallible operations return `Except`.
The external `WebhookClient.send` transport is modelled as a function
parameter; outbound transport invocations and informational log lines
are recorded explicitly in a `DispatchOutcome` record.
-/

namespace SlackNotifications

/-- Model of the JSON-like `Dict[str, Any]` payload values used for Slack
message blocks: strings, arrays and (insertion-ordered) string-keyed objects. -/
inductive SlackJson where
  | str (s : String)
  | arr (xs : List SlackJson)
  | obj (fields : List (String × SlackJson))

/-- Single quote character, written via its code point. -/
def squote : Char := Char.ofNat 39

/-- Double quote character, written via its code point. -/
def dquote : Char := Char.ofNat 34

/-- One character of a Python string repr, escaped as CPython does for the
chosen quote character (common escapes modelled: backslash, the delimiter,
newline, carriage return, tab). -/
def pyEscapeChar (quote : Char) (c : Char) : String :=
  if c = '\\' then "\\\\"
  else if c = quote then "\\" ++ String.singleton quote
  else if c = '\n' then "\\n"
  else if c = Char.ofNat 13 then "\\r"
  else if c = '\t' then "\\t"
  else String.singleton c

/-- Python `repr` of a string: single-quoted unless the string contains a
single quote and no double quote. -/
def pyReprString (s : String) : String :=
  let q := if s.data.contains squote && !(s.data.contains dquote) then dquote else squote
  String.singleton q ++ String.join (s.data.map (pyEscapeChar q)) ++ String.singleton q

mutual

/-- Python `repr` of a block payload value (`str`/`list`/`dict`). -/
def pyRepr : SlackJson → String
  | SlackJson.str s => pyReprString s
  | SlackJson.arr xs => "[" ++ pyReprSeq xs ++ "]"
  | SlackJson.obj fs => "\x7b" ++ pyReprFields fs ++ "\x7d"

/-- Comma-joined `repr`s of list elements. -/
def pyReprSeq : List SlackJson → String
  | [] => ""
  | [x] => pyRepr x
  | x :: y :: rest => pyRepr x ++ ", " ++ pyReprSeq (y :: rest)

/-- Comma-joined `repr(key): repr(value)` pairs of a dict. -/
def pyReprFields : List (String × SlackJson) → String
  | [] => ""
  | [(k, v)] => pyReprString k ++ ": " ++ pyRepr v
  | (k, v) :: f :: rest => pyReprString k ++ ": " ++ pyRepr v ++ ", " ++ pyReprFields (f :: rest)

end

/-- Python `str(blocks)` for a `List[Dict[str, Any]]` payload, as interpolated
by the f-string in `send_dummy_message`. -/
def blocksStr (blocks : List SlackJson) : String :=
  "[" ++ pyReprSeq blocks ++ "]"

/-- The string `part` occurs as a contiguous substring of `s`. -/
def strHas (part s : String) : Prop := part.data <:+: s.data

instance (part s : String) : Decidable (strHas part s) :=
  List.decidableInfix part.data s.data

/-- Model of Python `sorted` on a list of strings (ascending code-point
lexicographic, stable). -/
def py_sorted (l : List String) : List String :=
  l.mergeSort (fun a b => decide (a ≤ b))

/-- Message built by `SlackNotificationChannelDuplicateReferenceException.__init__`
(`exceptions.py`, including the `referecne` typo of the source). -/
def SlackNotificationChannelDuplicateReferenceException (channel_names : List String) : String :=
  "Duplicate referecne for slack notification channel references=[" ++
    String.intercalate ", " (py_sorted channel_names) ++ "]"

/-- Message built by `SlackNotificationChannelNotFoundException.__init__`. -/
def SlackNotificationChannelNotFoundException (channel_name : String) : String :=
  "Slack notification channel \x27" ++ channel_name ++ "\x27 not found."

/-- Message built by `SlackNotificationSendFailedException.__init__`. -/
def SlackNotificationSendFailedException (channel_name : String) (status_code : Int)
    (response_body : String) : String :=
  "Failed to send Slack notification to channel \x27" ++ channel_name ++
    "\x27. Status Code: " ++ toString status_code ++ ", Response: " ++ response_body

/-- The three exception classes of `exceptions.py`, each carrying its
formatted message. -/
inductive SlackError where
  | duplicateReference (msg : String)
  | channelNotFound (msg : String)
  | sendFailed (msg : String)
deriving DecidableEq

/-- `SlackChannelConfig` dataclass. -/
structure SlackChannelConfig where
  channel_reference : String
  channel_webhook_url : String
deriving DecidableEq

/-- `slack_sdk.webhook.WebhookClient`: an opaque transport handle bound to
one webhook URL. -/
structure WebhookClient where
  url : String
deriving DecidableEq

/-- Result of the transport `send` call: HTTP status code and response body. -/
structure WebhookResponse where
  status_code : Int
  body : String
deriving DecidableEq

/-- `SlackNotificationServiceConfig` dataclass. -/
structure SlackNotificationServiceConfig where
  channels : List SlackChannelConfig
  send_to_slack : Bool
  verbose : Bool

/-- State of a constructed `SlackNotificationService`: the channel mapping is
insertion-ordered with unique keys, modelled as an association list. -/
structure SlackNotificationService where
  send_to_slack : Bool
  verbose : Bool
  channels : List (String × WebhookClient)

/-- `SlackNotificationService.load_channel_webhooks`: validates that channel
references are pairwise distinct (Python compares `len(refs)` with
`len(set(refs))`), then builds one `WebhookClient` per config entry; the
error branch raises before any client is constructed. Returns the mapping
and the informational log lines emitted. -/
def load_channel_webhooks (verbose : Bool) (channel_configs : List SlackChannelConfig) :
    Except SlackError (List (String × WebhookClient) × List String) :=
  let channel_refs := channel_configs.map (fun cc => cc.channel_reference)
  if channel_refs.length ≠ channel_refs.dedup.length then
    Except.error (SlackError.duplicateReference
      (SlackNotificationChannelDuplicateReferenceException channel_refs))
  else
    let channels := channel_configs.map
      (fun cc => (cc.channel_reference, WebhookClient.mk cc.channel_webhook_url))
    let logs :=
      if verbose then
        ["SlackNotificationService initialized with the following channels: " ++
          String.intercalate ", " (channels.map Prod.fst)]
      else []
    Except.ok (channels, logs)

/-- `SlackNotificationService.__init__`: copies the flags and loads the
channel webhooks. -/
def SlackNotificationService.init (config : SlackNotificationServiceConfig) :
    Except SlackError (SlackNotificationService × List String) :=
  match load_channel_webhooks config.verbose config.channels with
  | Except.error e => Except.error e
  | Except.ok (chans, logs) =>
      Except.ok (SlackNotificationService.mk config.send_to_slack config.verbose chans, logs)

/-- `SlackNotificationService.get_webhook`: dictionary lookup, raising
`SlackNotificationChannelNotFoundException` when the reference is absent. -/
def get_webhook (service : SlackNotificationService) (channel_reference : String) :
    Except SlackError WebhookClient :=
  match service.channels.lookup channel_reference with
  | none => Except.error (SlackError.channelNotFound
      (SlackNotificationChannelNotFoundException channel_reference))
  | some channel_webhook => Except.ok channel_webhook

/-- Observable outcome of one dispatch operation: the transport invocations
made (in order, with their arguments), the informational log lines emitted,
and the exception raised, if any. -/
structure DispatchOutcome where
  calls : List (WebhookClient × List SlackJson)
  logs : List String
  error : Option SlackError

/-- Informational log line emitted by `send_message_to_slack` on verbose
success. -/
def success_log_line (reference : String) (status_code : Int) (body : String) : String :=
  "Message sent successfully to " ++ reference ++ " channel. Slack response: " ++
    toString status_code ++ " - " ++ body

/-- `SlackNotificationService.send_message_to_slack`: resolves the webhook,
invokes the transport, raises `SlackNotificationSendFailedException` on any
status other than 200, and logs on verbose success. -/
def send_message_to_slack (send : WebhookClient → List SlackJson → WebhookResponse)
    (service : SlackNotificationService) (reference : String) (blocks : List SlackJson) :
    DispatchOutcome :=
  match get_webhook service reference with
  | Except.error e => DispatchOutcome.mk [] [] (some e)
  | Except.ok webhook =>
      let response := send webhook blocks
      if response.status_code ≠ 200 then
        DispatchOutcome.mk [(webhook, blocks)] []
          (some (SlackError.sendFailed
            (SlackNotificationSendFailedException reference response.status_code response.body)))
      else
        DispatchOutcome.mk [(webhook, blocks)]
          (if service.verbose then [success_log_line reference response.status_code response.body]
           else [])
          none

/-- Log line emitted by `send_dummy_message`. -/
def dummy_log_line (reference : String) (blocks : List SlackJson) : String :=
  "[DUMMY SLACK MESSAGE] " ++ reference ++ " : " ++ blocksStr blocks

/-- `SlackNotificationService.send_dummy_message`: logs the payload instead of
sending it; no transport call, no failure. -/
def send_dummy_message (reference : String) (blocks : List SlackJson) : DispatchOutcome :=
  DispatchOutcome.mk [] [dummy_log_line reference blocks] none

/-- `SlackNotificationService.send_message`: dispatches to the real send or
the dry-run logger according to `send_to_slack`. -/
def send_message (send : WebhookClient → List SlackJson → WebhookResponse)
    (service : SlackNotificationService) (reference : String) (blocks : List SlackJson) :
    DispatchOutcome :=
  if service.send_to_slack then send_message_to_slack send service reference blocks
  else send_dummy_message reference blocks

/-- `SlackNotificationService.bold_text`. -/
def bold_text (text : String) : String := "*" ++ text ++ "*"

/-- `SlackNotificationService.italic_text`. -/
def italic_text (text : String) : String := "_" ++ text ++ "_"

/-- `SlackNotificationService.url_link`. -/
def url_link (text : String) (url : String) : String := "<" ++ url ++ "|" ++ text ++ ">"

/-- `SlackNotificationService.list_items`. The bullet produced by the source
is the three-character sequence U+00E2 U+20AC U+00A2 (the bytes of the
UTF-8 encoding of U+2022 read back as individual characters), exactly as
the source file decodes under UTF-8. -/
def list_items (items : List String) : String :=
  String.intercalate "\n" (items.map (fun item => "â€¢ " ++ item))

/-- `SlackNotificationService.list_items_numbered`. -/
def list_items_numbered (items : List String) : String :=
  String.intercalate "\n" (items.enum.map (fun p => toString (p.1 + 1) ++ ". " ++ p.2))

/-- `SlackNotificationService.generic_message_blocks`. -/
def generic_message_blocks (title : String) (message : String) : List SlackJson :=
  [SlackJson.obj [("type", SlackJson.str "section"),
    ("text", SlackJson.obj [("type", SlackJson.str "mrkdwn"),
      ("text", SlackJson.str ("*" ++ title ++ "*\n" ++ message))])]]

/-- `SlackNotificationService.divider_block`. -/
def divider_block : SlackJson := SlackJson.obj [("type", SlackJson.str "divider")]

/-- `SlackNotificationService.section_block`. -/
def section_block (text : String) : SlackJson :=
  SlackJson.obj [("type", SlackJson.str "section"),
    ("text", SlackJson.obj [("type", SlackJson.str "mrkdwn"), ("text", SlackJson.str text)])]

/-- `SlackNotificationService.footer_block`. -/
def footer_block (footer_message : String) : SlackJson :=
  SlackJson.obj [("type", SlackJson.str "context"),
    ("elements", SlackJson.arr [SlackJson.obj
      [("type", SlackJson.str "mrkdwn"), ("text", SlackJson.str footer_message)]])]

/-- A string occurs inside itself. -/
theorem strHas_rfl (p : String) : strHas p p :=
  ⟨[], [], by simp⟩

/-- Substring occurrence is preserved by appending on the left. -/
theorem strHas_appendl (p s t : String) (h : strHas p t) : strHas p (s ++ t) := by
  obtain ⟨l, r, hr⟩ := h
  exact ⟨s.data ++ l, r, by rw [String.data_append, ← hr]; simp [List.append_assoc]⟩

/-- Substring occurrence is preserved by appending on the right. -/
theorem strHas_appendr (p s t : String) (h : strHas p s) : strHas p (s ++ t) := by
  obtain ⟨l, r, hr⟩ := h
  exact ⟨l, r ++ t.data, by rw [String.data_append, ← hr]; simp [List.append_assoc]⟩

/-- Two strings starting with distinct characters are distinct. -/
theorem ne_of_head (s₁ s₂ : String) (c₁ c₂ : Char)
    (h₁ : s₁.data.head? = some c₁) (h₂ : s₂.data.head? = some c₂) (hne : c₁ ≠ c₂) :
    s₁ ≠ s₂ := by
  intro he
  rw [he, h₂] at h₁
  exact hne (Option.some.inj h₁).symm

/-- A list without duplicate entries has as many entries as its
deduplication. -/
theorem length_dedup_eq_of_nodup (l : List String) (h : l.Nodup) :
    l.length = l.dedup.length := by
  rw [List.dedup_eq_self.mpr h]

/-- A list with a duplicate entry is strictly longer than its
deduplication. -/
theorem length_ne_dedup_of_not_nodup (l : List String) (h : ¬ l.Nodup) :
    l.length ≠ l.dedup.length := by
  intro he
  exact h (by
    have := (List.dedup_sublist l).eq_of_length he.symm
    rw [← this]
    exact List.nodup_dedup l)

/-- A verbose success log line starts with the character M. -/
theorem success_log_line_head (r : String) (st : Int) (b : String) :
    (success_log_line r st b).data.head? = some 'M' := by
  simp only [success_log_line, String.data_append, List.head?_append]
  simp [show ("Message sent successfully to " : String).data.head? = some 'M' from by decide]

/-- The dry-run log line starts with an opening bracket. -/
theorem dummy_log_line_head (r : String) (bl : List SlackJson) :
    (dummy_log_line r bl).data.head? = some '[' := by
  simp only [dummy_log_line, String.data_append, List.head?_append]
  simp [show ("[DUMMY SLACK MESSAGE] " : String).data.head? = some '[' from by decide]

/-- A verbose success log line is never the dry-run log line: the former
starts with the character M, the latter with an opening bracket. -/
theorem success_log_line_ne_dummy_log_line (r : String) (st : Int) (b : String)
    (r' : String) (bl : List SlackJson) :
    success_log_line r st b ≠ dummy_log_line r' bl :=
  ne_of_head _ _ 'M' '[' (success_log_line_head r st b) (dummy_log_line_head r' bl) (by decide)

/-- Claim C5 evidence: on the repository's own test input
`["first", "second", "third"]`, `list_items` produces lines prefixed with the
three-character mojibake sequence U+00E2 U+20AC U+00A2 and a space, not with
the bullet U+2022 and a space that the test `test_list_items` asserts. -/
theorem list_items_mojibake_on_test_input :
    list_items ["first", "second", "third"] = "â€¢ first\nâ€¢ second\nâ€¢ third" ∧
    list_items ["first", "second", "third"] ≠
      "• first\n• second\n• third" := by
  exact ⟨by decide, by decide⟩

/-- Claim C8: `list_items_numbered` joins by newline the lines built from the
1-based index, a period, a space and the item; on `["first","second","third"]`
it yields the expected three numbered lines. -/
theorem list_items_numbered_spec (items : List String) :
    list_items_numbered items =
      String.intercalate "\n" (items.mapIdx (fun i item => toString (i + 1) ++ ". " ++ item)) ∧
    list_items_numbered ["first", "second", "third"] = "1. first\n2. second\n3. third" := by
  constructor
  · simp only [list_items_numbered, List.mapIdx_eq_enum_map]
    rfl
  · decide

/-- Claim C9: `generic_message_blocks` returns exactly one section block whose
mrkdwn text is the bold title, a newline, then the message. -/
theorem generic_message_blocks_spec (title message : String) :
    generic_message_blocks title message =
      [SlackJson.obj [("type", SlackJson.str "section"),
        ("text", SlackJson.obj [("type", SlackJson.str "mrkdwn"),
          ("text", SlackJson.str (bold_text title ++ "\n" ++ message))])]] ∧
    (generic_message_blocks title message).length = 1 := by
  constructor
  · have h : ("*\n" : String) = "*" ++ "\n" := by decide
    simp only [generic_message_blocks, bold_text, h, String.append_assoc]
  · rfl

/-- Claim C10: on the empty list both list formatters return the empty
string. -/
theorem list_formatters_empty : list_items [] = "" ∧ list_items_numbered [] = "" :=
  ⟨rfl, rfl⟩

/-- Claim C1: on any configuration list with a repeated reference (case-sensitive),
`load_channel_webhooks` fails with the duplicate-reference error whose message
contains the sorted, comma-joined list of all input references; the error
result carries no channel mapping, so no transport handle is created. -/
theorem load_channel_webhooks_duplicate_refs (verbose : Bool)
    (channel_configs : List SlackChannelConfig)
    (h : ¬ (channel_configs.map (fun cc => cc.channel_reference)).Nodup) :
    ∃ msg,
      load_channel_webhooks verbose channel_configs =
        Except.error (SlackError.duplicateReference msg) ∧
      strHas (String.intercalate ", "
        (py_sorted (channel_configs.map (fun cc => cc.channel_reference)))) msg := by
  refine ⟨SlackNotificationChannelDuplicateReferenceException
    (channel_configs.map (fun cc => cc.channel_reference)), ?_, ?_⟩
  · simp only [load_channel_webhooks]
    rw [if_pos (length_ne_dedup_of_not_nodup _ h)]
  · simp only [SlackNotificationChannelDuplicateReferenceException]
    exact strHas_appendr _ _ _ (strHas_appendl _ _ _ (strHas_rfl _))

/-- Claim C1 witness at a concrete duplicated configuration. -/
theorem load_channel_webhooks_duplicate_refs_witness :
    ¬ (([SlackChannelConfig.mk "alerts" "https://hooks.example/a",
         SlackChannelConfig.mk "alerts" "https://hooks.example/b"].map
        (fun cc => cc.channel_reference)).Nodup) ∧
    ∃ msg,
      load_channel_webhooks false
          [SlackChannelConfig.mk "alerts" "https://hooks.example/a",
           SlackChannelConfig.mk "alerts" "https://hooks.example/b"] =
        Except.error (SlackError.duplicateReference msg) ∧
      strHas (String.intercalate ", "
        (py_sorted ([SlackChannelConfig.mk "alerts" "https://hooks.example/a",
           SlackChannelConfig.mk "alerts" "https://hooks.example/b"].map
          (fun cc => cc.channel_reference)))) msg :=
  ⟨by decide, load_channel_webhooks_duplicate_refs false _ (by decide)⟩

/-- Claim C7: on any configuration list with pairwise-distinct references,
`load_channel_webhooks` succeeds with one webhook client per entry, bound to
that entry's URL, and the mapping keys are exactly the input references. -/
theorem load_channel_webhooks_unique_refs (verbose : Bool)
    (channel_configs : List SlackChannelConfig)
    (h : (channel_configs.map (fun cc => cc.channel_reference)).Nodup) :
    ∃ logs,
      load_channel_webhooks verbose channel_configs =
        Except.ok (channel_configs.map
          (fun cc => (cc.channel_reference, WebhookClient.mk cc.channel_webhook_url)), logs) ∧
      (channel_configs.map
          (fun cc => (cc.channel_reference, WebhookClient.mk cc.channel_webhook_url))).map
          Prod.fst =
        channel_configs.map (fun cc => cc.channel_reference) := by
  refine ⟨if verbose then
      ["SlackNotificationService initialized with the following channels: " ++
        String.intercalate ", " ((channel_configs.map
          (fun cc => (cc.channel_reference, WebhookClient.mk cc.channel_webhook_url))).map
          Prod.fst)]
    else [], ?_, ?_⟩
  · simp only [load_channel_webhooks]
    rw [if_neg (fun hne => hne (length_dedup_eq_of_nodup _ h))]
  · rw [List.map_map]
    rfl

/-- Claim C7 witness at a concrete two-channel configuration. -/
theorem load_channel_webhooks_unique_refs_witness :
    ([SlackChannelConfig.mk "alerts" "https://hooks.example/a",
      SlackChannelConfig.mk "deploys" "https://hooks.example/b"].map
        (fun cc => cc.channel_reference)).Nodup ∧
    ∃ logs,
      load_channel_webhooks true
          [SlackChannelConfig.mk "alerts" "https://hooks.example/a",
           SlackChannelConfig.mk "deploys" "https://hooks.example/b"] =
        Except.ok ([SlackChannelConfig.mk "alerts" "https://hooks.example/a",
           SlackChannelConfig.mk "deploys" "https://hooks.example/b"].map
          (fun cc => (cc.channel_reference, WebhookClient.mk cc.channel_webhook_url)), logs) ∧
      ([SlackChannelConfig.mk "alerts" "https://hooks.example/a",
        SlackChannelConfig.mk "deploys" "https://hooks.example/b"].map
          (fun cc => (cc.channel_reference, WebhookClient.mk cc.channel_webhook_url))).map
          Prod.fst =
        [SlackChannelConfig.mk "alerts" "https://hooks.example/a",
         SlackChannelConfig.mk "deploys" "https://hooks.example/b"].map
          (fun cc => cc.channel_reference) :=
  ⟨by decide, load_channel_webhooks_unique_refs true _ (by decide)⟩

/-- Claim C6: `get_webhook` returns the bound client when the reference is in
the mapping, and fails with a channel-not-found error whose message contains
the requested reference when it is absent. -/
theorem get_webhook_spec (service : SlackNotificationService) (reference : String) :
    (∀ w, service.channels.lookup reference = some w →
      get_webhook service reference = Except.ok w) ∧
    (service.channels.lookup reference = none →
      ∃ msg, get_webhook service reference = Except.error (SlackError.channelNotFound msg) ∧
        strHas reference msg) := by
  constructor
  · intro w hw
    simp [get_webhook, hw]
  · intro hn
    refine ⟨SlackNotificationChannelNotFoundException reference, ?_, ?_⟩
    · simp [get_webhook, hn]
    · simp only [SlackNotificationChannelNotFoundException]
      exact strHas_appendr _ _ _ (strHas_appendl _ _ _ (strHas_rfl _))

/-- Claim C6 witness at a concrete one-channel registry, both branches. -/
theorem get_webhook_spec_witness :
    get_webhook (SlackNotificationService.mk true false
        [("alerts", WebhookClient.mk "https://hooks.example/a")]) "alerts" =
      Except.ok (WebhookClient.mk "https://hooks.example/a") ∧
    ∃ msg, get_webhook (SlackNotificationService.mk true false
        [("alerts", WebhookClient.mk "https://hooks.example/a")]) "nonexistent" =
        Except.error (SlackError.channelNotFound msg) ∧ strHas "nonexistent" msg :=
  ⟨(get_webhook_spec (SlackNotificationService.mk true false
        [("alerts", WebhookClient.mk "https://hooks.example/a")]) "alerts").1
      (WebhookClient.mk "https://hooks.example/a") (by decide),
   (get_webhook_spec (SlackNotificationService.mk true false
        [("alerts", WebhookClient.mk "https://hooks.example/a")]) "nonexistent").2 (by decide)⟩

/-- Claim C2: for a configured reference, `send_message_to_slack` succeeds
exactly when the transport returns status 200; on any other status it fails
with a send-failed error whose message contains the reference, the status
code and the response body. -/
theorem send_message_to_slack_spec
    (send : WebhookClient → List SlackJson → WebhookResponse)
    (service : SlackNotificationService) (reference : String) (webhook : WebhookClient)
    (blocks : List SlackJson)
    (h : service.channels.lookup reference = some webhook) :
    ((send_message_to_slack send service reference blocks).error = none ↔
      (send webhook blocks).status_code = 200) ∧
    ((send webhook blocks).status_code ≠ 200 →
      ∃ msg, (send_message_to_slack send service reference blocks).error =
          some (SlackError.sendFailed msg) ∧
        strHas reference msg ∧
        strHas (toString (send webhook blocks).status_code) msg ∧
        strHas (send webhook blocks).body msg) := by
  have hw : get_webhook service reference = Except.ok webhook := by simp [get_webhook, h]
  by_cases hst : (send webhook blocks).status_code = 200
  · refine ⟨by simp [send_message_to_slack, hw, hst], fun hne => absurd hst hne⟩
  · refine ⟨by simp [send_message_to_slack, hw, hst], fun _ => ?_⟩
    refine ⟨SlackNotificationSendFailedException reference
      (send webhook blocks).status_code (send webhook blocks).body, ?_, ?_, ?_, ?_⟩
    · simp [send_message_to_slack, hw, hst]
    · simp only [SlackNotificationSendFailedException]
      exact strHas_appendr _ _ _ (strHas_appendr _ _ _ (strHas_appendr _ _ _
        (strHas_appendr _ _ _ (strHas_appendl _ _ _ (strHas_rfl _)))))
    · simp only [SlackNotificationSendFailedException]
      exact strHas_appendr _ _ _ (strHas_appendr _ _ _ (strHas_appendl _ _ _ (strHas_rfl _)))
    · simp only [SlackNotificationSendFailedException]
      exact strHas_appendl _ _ _ (strHas_rfl _)

/-- Claim C2 witness: a transport answering 500 with body "internal error"
on a registry holding the "alerts" channel. -/
theorem send_message_to_slack_spec_witness :
    List.lookup "alerts" [("alerts", WebhookClient.mk "https://hooks.example/a")] =
      some (WebhookClient.mk "https://hooks.example/a") ∧
    (((send_message_to_slack (fun _ _ => WebhookResponse.mk 500 "internal error")
        (SlackNotificationService.mk true false
          [("alerts", WebhookClient.mk "https://hooks.example/a")]) "alerts" []).error =
        none ↔ (500 : Int) = 200) ∧
    ((500 : Int) ≠ 200 →
      ∃ msg, (send_message_to_slack (fun _ _ => WebhookResponse.mk 500 "internal error")
          (SlackNotificationService.mk true false
            [("alerts", WebhookClient.mk "https://hooks.example/a")]) "alerts" []).error =
          some (SlackError.sendFailed msg) ∧
        strHas "alerts" msg ∧
        strHas (toString (500 : Int)) msg ∧
        strHas "internal error" msg)) :=
  ⟨by decide, send_message_to_slack_spec (fun _ _ => WebhookResponse.mk 500 "internal error")
    (SlackNotificationService.mk true false
      [("alerts", WebhookClient.mk "https://hooks.example/a")]) "alerts"
    (WebhookClient.mk "https://hooks.example/a") [] (by decide)⟩

/-- Claim C3: with `send_to_slack` disabled, `send_message` makes no transport
call, raises nothing (even for an unconfigured reference), and emits exactly
one log line holding the dry-run marker, the reference and the payload's
textual representation. -/
theorem send_message_dry_run
    (send : WebhookClient → List SlackJson → WebhookResponse)
    (service : SlackNotificationService) (reference : String) (blocks : List SlackJson)
    (h : service.send_to_slack = false) :
    send_message send service reference blocks =
      DispatchOutcome.mk [] [dummy_log_line reference blocks] none ∧
    strHas "[DUMMY SLACK MESSAGE]" (dummy_log_line reference blocks) ∧
    strHas reference (dummy_log_line reference blocks) ∧
    strHas (blocksStr blocks) (dummy_log_line reference blocks) := by
  refine ⟨by simp [send_message, h, send_dummy_message], ?_, ?_, ?_⟩
  · have hm : ("[DUMMY SLACK MESSAGE] " : String) = "[DUMMY SLACK MESSAGE]" ++ " " := by decide
    simp only [dummy_log_line, hm]
    exact strHas_appendr _ _ _ (strHas_appendr _ _ _
      (strHas_appendr _ _ _ (strHas_appendr _ _ _ (strHas_rfl _))))
  · simp only [dummy_log_line]
    exact strHas_appendr _ _ _ (strHas_appendr _ _ _ (strHas_appendl _ _ _ (strHas_rfl _)))
  · simp only [dummy_log_line]
    exact strHas_appendl _ _ _ (strHas_rfl _)

/-- Claim C3 witness: dry-run dispatch to an unconfigured reference on an
empty registry. -/
theorem send_message_dry_run_witness :
    (SlackNotificationService.mk false false []).send_to_slack = false ∧
    (send_message (fun _ _ => WebhookResponse.mk 200 "ok")
        (SlackNotificationService.mk false false []) "ghost" [] =
      DispatchOutcome.mk [] [dummy_log_line "ghost" []] none ∧
    strHas "[DUMMY SLACK MESSAGE]" (dummy_log_line "ghost" []) ∧
    strHas "ghost" (dummy_log_line "ghost" []) ∧
    strHas (blocksStr []) (dummy_log_line "ghost" [])) :=
  ⟨rfl, send_message_dry_run _ _ "ghost" [] rfl⟩

/-- Claim C4: with `send_to_slack` enabled, `send_message` is extensionally
`send_message_to_slack` (same calls, logs and error), and none of its log
lines is the dry-run line. -/
theorem send_message_enabled
    (send : WebhookClient → List SlackJson → WebhookResponse)
    (service : SlackNotificationService) (reference : String) (blocks : List SlackJson)
    (h : service.send_to_slack = true) :
    send_message send service reference blocks =
      send_message_to_slack send service reference blocks ∧
    ∀ line ∈ (send_message send service reference blocks).logs,
      line ≠ dummy_log_line reference blocks := by
  have h1 : send_message send service reference blocks =
      send_message_to_slack send service reference blocks := by
    simp [send_message, h]
  refine ⟨h1, ?_⟩
  rw [h1]
  cases hgw : get_webhook service reference with
  | error e => simp [send_message_to_slack, hgw]
  | ok webhook =>
    by_cases hst : (send webhook blocks).status_code = 200
    · by_cases hv : service.verbose
      · simp only [send_message_to_slack, hgw, hst, hv]
        simp
        exact success_log_line_ne_dummy_log_line _ _ _ _ _
      · simp [send_message_to_slack, hgw, hst, hv]
    · simp [send_message_to_slack, hgw, hst]

/-- Claim C4 witness: enabled dispatch on a configured channel with a
transport answering 200. -/
theorem send_message_enabled_witness :
    (SlackNotificationService.mk true false
      [("alerts", WebhookClient.mk "https://hooks.example/a")]).send_to_slack = true ∧
    (send_message (fun _ _ => WebhookResponse.mk 200 "ok")
        (SlackNotificationService.mk true false
          [("alerts", WebhookClient.mk "https://hooks.example/a")]) "alerts" [] =
      send_message_to_slack (fun _ _ => WebhookResponse.mk 200 "ok")
        (SlackNotificationService.mk true false
          [("alerts", WebhookClient.mk "https://hooks.example/a")]) "alerts" [] ∧
    ∀ line ∈ (send_message (fun _ _ => WebhookResponse.mk 200 "ok")
        (SlackNotificationService.mk true false
          [("alerts", WebhookClient.mk "https://hooks.example/a")]) "alerts" []).logs,
      line ≠ dummy_log_line "alerts" []) :=
  ⟨rfl, send_message_enabled _ _ "alerts" [] rfl⟩

end SlackNotifications
